import Mathlib

/-!
Shallow embedding of the Voronoi relevance grid simulation core
(`src/App.tsx`): relevance scoring, target-radius mapping, the per-tick
physics step, the pairwise collision-resolution pass, the bounds clamp,
and per-tick cell generation.

Numbers are modelled as exact rationals (`ℚ`).  The JavaScript `Math`
primitives used by the collision loop (`Math.sqrt`, `Math.atan2`,
`Math.cos`, `Math.sin`) are external transcendental functions; they are
abstracted as a parameter record `JsMath`, and theorems that depend on
their behaviour take the relevant facts (e.g. `sqrt d * sqrt d = d`,
`cos (atan2 dy dx) = dx / dist`) as hypotheses.  Strings are modelled as
`List Char`, with `toLowerCase` and `includes` defined from first
principles to match the JavaScript semantics.
-/

namespace VGrid

/-- JavaScript `String.prototype.toLowerCase`, modelled per character. -/
def lowerL (s : List Char) : List Char := s.map Char.toLower

/-- Check that `h` begins with `n` (helper for substring containment). -/
def startsWithL : List Char → List Char → Bool
  | [], _ => true
  | _ :: _, [] => false
  | a :: as, b :: bs => a == b && startsWithL as bs

/-- JavaScript `h.includes(n)`: `n` occurs contiguously inside `h`.
The empty needle is contained in every string, as in JavaScript. -/
def includesL : List Char → List Char → Bool
  | [], n => n.isEmpty
  | c :: t, n => startsWithL n (c :: t) || includesL t n

/-- `Item` from `src/App.tsx`: id, title, category, image, tags. -/
structure Item where
  id : List Char
  title : List Char
  category : List Char
  image : List Char
  tags : List (List Char)
deriving DecidableEq

/-- `Point` from `src/App.tsx`: per-item kinematic state. -/
structure Pt where
  x : ℚ
  y : ℚ
  vx : ℚ
  vy : ℚ
  r : ℚ
  targetR : ℚ
  id : List Char
deriving DecidableEq

/-- `Cell` from `src/App.tsx`.  `path` is the result of the external
`voronoi.renderCell(i)` call, `none` when no polygon is produced (the
JS value is then falsy).  `item` is the result of `MOCK_ITEMS.find`,
which in JS carries a non-null assertion. -/
structure Cell where
  path : Option (List Char)
  item : Option Item
  relevance : ℚ
  center : ℚ × ℚ
deriving DecidableEq

-- Physics and layout constants from `src/App.tsx`.

def CANVAS_WIDTH : ℚ := 1200
def CANVAS_HEIGHT : ℚ := 800
def BASE_RADIUS : ℚ := 60
def MAX_RADIUS : ℚ := 180
def FRICTION : ℚ := 0.9
def STIFFNESS : ℚ := 0.05

/-- `calculateRelevance` from `src/App.tsx`.  The JS sequence of
`score +=` statements is rendered as the sum of the four (guarded)
contributions; `Math.min(score, 1.0) || 0.05` returns `0.05` exactly
when the min is `0` (the only falsy value reachable here). -/
def calculateRelevance (query : List Char) (item : Item) : ℚ :=
  if query = [] then 0.1
  else
    let q := lowerL query
    let score : ℚ :=
      (if includesL (lowerL item.title) q then 0.6 else 0)
      + (if includesL (lowerL item.category) q then 0.3 else 0)
      + (if item.tags.any (fun t => includesL (lowerL t) q) then 0.2 else 0)
      + (if lowerL item.title = q then 0.4 else 0)
    if min score 1 = 0 then 0.05 else min score 1

/-- Spec-side restatement of the scoring rule, written from the claim's
wording (additive weights, clamp above by 1, floor a zero clamped sum
to 0.05, constant 0.1 for the empty query), for comparison with the
source-derived `calculateRelevance`. -/
def specRelevance (query : List Char) (item : Item) : ℚ :=
  if query = [] then 0.1
  else
    let s : ℚ :=
      (if includesL (lowerL item.title) (lowerL query) then 0.6 else 0)
      + (if includesL (lowerL item.category) (lowerL query) then 0.3 else 0)
      + (if item.tags.any (fun t => includesL (lowerL t) (lowerL query)) then 0.2 else 0)
      + (if lowerL item.title = lowerL query then 0.4 else 0)
    if min s 1 = 0 then 0.05 else min s 1

/-- Target radius written by the query-change effect in `src/App.tsx`:
`p.targetR = BASE_RADIUS + (MAX_RADIUS - BASE_RADIUS) * (relevance > 0.1 ? relevance : 0)`. -/
def updateTargetR (query : List Char) (item : Item) : ℚ :=
  let relevance := calculateRelevance query item
  BASE_RADIUS + (MAX_RADIUS - BASE_RADIUS) * (if 0.1 < relevance then relevance else 0)

/-- The query-change effect itself: write the new target radius into
every point, looking its item up by id (the JS code uses a non-null
assertion on `find`; a missing item leaves the point unchanged here). -/
def setTargetRs (query : List Char) (items : List Item) (pts : List Pt) : List Pt :=
  pts.map fun p =>
    match items.find? (fun i => i.id = p.id) with
    | some item => { p with targetR := updateTargetR query item }
    | none => p

/-- Point initialization from `src/App.tsx` (`rx`, `ry` stand for the
two `Math.random()` draws in `[0,1)`). -/
def initPt (rx ry : ℚ) (item : Item) : Pt :=
  { x := rx * CANVAS_WIDTH
    y := ry * CANVAS_HEIGHT
    vx := 0
    vy := 0
    r := BASE_RADIUS
    targetR := BASE_RADIUS
    id := item.id }

/-- Step 1 of `animate` in `src/App.tsx`, per point: radius smoothing,
centering acceleration, friction, then integration — as a sequence of
let bindings mirroring the source's in-place mutations. -/
def physStep (p : Pt) : Pt :=
  let r := p.r + (p.targetR - p.r) * 0.1
  let dx := CANVAS_WIDTH / 2 - p.x
  let dy := CANVAS_HEIGHT / 2 - p.y
  let vx := p.vx + dx * 0.001
  let vy := p.vy + dy * 0.001
  let vx := vx * FRICTION
  let vy := vy * FRICTION
  { p with r := r, vx := vx, vy := vy, x := p.x + vx, y := p.y + vy }

/-- External JavaScript `Math` primitives used by the collision loop. -/
structure JsMath where
  sqrt : ℚ → ℚ
  atan2 : ℚ → ℚ → ℚ
  cos : ℚ → ℚ
  sin : ℚ → ℚ

/-- The body of the collision loop in `src/App.tsx` for one pair:
if `dist < (p1.r + p2.r) * 0.8`, push the two points apart along the
`atan2` direction with magnitude `(minDist - dist) * STIFFNESS`. -/
def collidePair (M : JsMath) (p1 p2 : Pt) : Pt × Pt :=
  let dx := p2.x - p1.x
  let dy := p2.y - p1.y
  let dist := M.sqrt (dx * dx + dy * dy)
  let minDist := (p1.r + p2.r) * 0.8
  if dist < minDist then
    let force := (minDist - dist) * STIFFNESS
    let angle := M.atan2 dy dx
    let fx := M.cos angle * force
    let fy := M.sin angle * force
    ({ p1 with x := p1.x - fx, y := p1.y - fy },
     { p2 with x := p2.x + fx, y := p2.y + fy })
  else (p1, p2)

/-- One pair update inside the pass: read `points[i]` and `points[j]`,
apply `collidePair`, and write both back (the JS loop mutates the two
array entries through object references). -/
def pairStep (M : JsMath) (pts : List Pt) (i j : Nat) : List Pt :=
  match pts[i]?, pts[j]? with
  | some p1, some p2 =>
      let q := collidePair M p1 p2
      (pts.set i q.1).set j q.2
  | _, _ => pts

/-- Index pairs visited by the double loop `for i; for j = i + 1`:
`(i, j)` with `i < j < n`, in the source's iteration order. -/
def pairsList (n : Nat) : List (Nat × Nat) :=
  (List.range n).flatMap fun i => (List.range (n - (i + 1))).map fun k => (i, i + 1 + k)

/-- Step 2 of `animate`: one Gauss–Seidel pass over all index pairs,
each later pair seeing the updated positions of earlier ones. -/
def collidePass (M : JsMath) (pts : List Pt) : List Pt :=
  (pairsList pts.length).foldl (fun acc ij => pairStep M acc ij.1 ij.2) pts

/-- Step 3 of `animate`, per point:
`p.x = Math.max(0, Math.min(CANVAS_WIDTH, p.x))` and likewise for `y`. -/
def clampPt (p : Pt) : Pt :=
  { p with
    x := max 0 (min CANVAS_WIDTH p.x)
    y := max 0 (min CANVAS_HEIGHT p.y) }

/-- Step 3 of `animate` over the whole list. -/
def clampPass (pts : List Pt) : List Pt := pts.map clampPt

/-- Normalized relevance computed for a cell in step 5 of `animate`:
`(p.r - BASE_RADIUS) / (MAX_RADIUS - BASE_RADIUS)` (no clamp in the
source). -/
def cellRelevance (p : Pt) : ℚ := (p.r - BASE_RADIUS) / (MAX_RADIUS - BASE_RADIUS)

/-- Step 5 of `animate`, carrying the running index fed to the external
`voronoi.renderCell(i)` (modelled by `render`): one cell per point,
unconditionally. -/
def genCellsAux (render : Nat → Option (List Char)) (items : List Item) :
    Nat → List Pt → List Cell
  | _, [] => []
  | i, p :: rest =>
      { path := render i
        item := items.find? (fun it => it.id = p.id)
        relevance := cellRelevance p
        center := (p.x, p.y) } :: genCellsAux render items (i + 1) rest

/-- Step 5 of `animate`: `points.map((p, i) => ...)`. -/
def genCells (render : Nat → Option (List Char)) (items : List Item)
    (pts : List Pt) : List Cell :=
  genCellsAux render items 0 pts

/-- One whole `animate` tick: physics step, collision pass, bounds
clamp, then cell generation from the clamped positions.  The Voronoi
construction itself lives in the external `d3-delaunay` library and is
abstracted by `render`. -/
def tick (M : JsMath) (render : Nat → Option (List Char)) (items : List Item)
    (pts : List Pt) : List Pt × List Cell :=
  let stepped := pts.map physStep
  let collided := collidePass M stepped
  let clamped := clampPass collided
  (clamped, genCells render items clamped)

/-- Sum of one rational field over a point list (used to state
conservation of the position sum by the collision pass). -/
def sumF (f : Pt → ℚ) (l : List Pt) : ℚ := (l.map f).sum

/-- Sum of the `x` coordinates of a point list. -/
def sumX (l : List Pt) : ℚ := sumF Pt.x l

/-- Sum of the `y` coordinates of a point list. -/
def sumY (l : List Pt) : ℚ := sumF Pt.y l

-- The `MOCK_ITEMS` catalog from `src/App.tsx`.

/-- Item 1 of `MOCK_ITEMS`. -/
def itm1 : Item :=
  { id := "1".data, title := "Neon Tokyo".data, category := "Cyberpunk".data
    image := "https://images.unsplash.com/photo-1540979388789-6cee28a1cdc9?q=80&w=1000&auto=format&fit=crop".data
    tags := ["city".data, "night".data, "lights".data, "neon".data] }

/-- Item 2 of `MOCK_ITEMS`. -/
def itm2 : Item :=
  { id := "2".data, title := "Alpine Solitude".data, category := "Nature".data
    image := "https://images.unsplash.com/photo-1519681393784-d120267933ba?q=80&w=1000&auto=format&fit=crop".data
    tags := ["mountain".data, "snow".data, "winter".data, "peace".data] }

/-- Item 3 of `MOCK_ITEMS`. -/
def itm3 : Item :=
  { id := "3".data, title := "Desert Mirage".data, category := "Nature".data
    image := "https://images.unsplash.com/photo-1473580044384-7ba9967e16a0?q=80&w=1000&auto=format&fit=crop".data
    tags := ["sand".data, "heat".data, "dry".data, "orange".data] }

/-- Item 4 of `MOCK_ITEMS`. -/
def itm4 : Item :=
  { id := "4".data, title := "Deep Ocean".data, category := "Abstract".data
    image := "https://images.unsplash.com/photo-1551244072-5d12893278ab?q=80&w=1000&auto=format&fit=crop".data
    tags := ["blue".data, "water".data, "dark".data, "mystery".data] }

/-- Item 5 of `MOCK_ITEMS`. -/
def itm5 : Item :=
  { id := "5".data, title := "Urban Jungle".data, category := "Architecture".data
    image := "https://images.unsplash.com/photo-1449824913935-59a10b8d2000?q=80&w=1000&auto=format&fit=crop".data
    tags := ["building".data, "green".data, "city".data, "modern".data] }

/-- Item 6 of `MOCK_ITEMS`. -/
def itm6 : Item :=
  { id := "6".data, title := "Cosmic Dust".data, category := "Space".data
    image := "https://images.unsplash.com/photo-1534796636912-3b95b3ab5986?q=80&w=1000&auto=format&fit=crop".data
    tags := ["stars".data, "galaxy".data, "purple".data, "dust".data] }

/-- Item 7 of `MOCK_ITEMS`. -/
def itm7 : Item :=
  { id := "7".data, title := "Glass Prism".data, category := "Abstract".data
    image := "https://images.unsplash.com/photo-1504198458649-3128b932f49e?q=80&w=1000&auto=format&fit=crop".data
    tags := ["light".data, "refraction".data, "color".data, "shape".data] }

/-- Item 8 of `MOCK_ITEMS`. -/
def itm8 : Item :=
  { id := "8".data, title := "Forest Mist".data, category := "Nature".data
    image := "https://images.unsplash.com/photo-1441974231531-c6227db76b6e?q=80&w=1000&auto=format&fit=crop".data
    tags := ["trees".data, "fog".data, "green".data, "morning".data] }

/-- Item 9 of `MOCK_ITEMS`. -/
def itm9 : Item :=
  { id := "9".data, title := "Cyber Circuit".data, category := "Tech".data
    image := "https://images.unsplash.com/photo-1518770660439-4636190af475?q=80&w=1000&auto=format&fit=crop".data
    tags := ["computer".data, "chip".data, "data".data, "future".data] }

/-- Item 10 of `MOCK_ITEMS`. -/
def itm10 : Item :=
  { id := "10".data, title := "Volcanic Ash".data, category := "Nature".data
    image := "https://images.unsplash.com/photo-1462331940025-496dfbfc7564?q=80&w=1000&auto=format&fit=crop".data
    tags := ["fire".data, "dark".data, "smoke".data, "power".data] }

/-- Item 11 of `MOCK_ITEMS`. -/
def itm11 : Item :=
  { id := "11".data, title := "Geometric Wall".data, category := "Architecture".data
    image := "https://images.unsplash.com/photo-1486325212027-8081e485255e?q=80&w=1000&auto=format&fit=crop".data
    tags := ["pattern".data, "white".data, "shadow".data, "minimal".data] }

/-- Item 12 of `MOCK_ITEMS`. -/
def itm12 : Item :=
  { id := "12".data, title := "Liquid Gold".data, category := "Abstract".data
    image := "https://images.unsplash.com/photo-1500462918059-b1a0cb512f1d?q=80&w=1000&auto=format&fit=crop".data
    tags := ["yellow".data, "fluid".data, "shiny".data, "metal".data] }

/-- The full `MOCK_ITEMS` catalog. -/
def MOCK_ITEMS : List Item :=
  [itm1, itm2, itm3, itm4, itm5, itm6, itm7, itm8, itm9, itm10, itm11, itm12]

/-- Concrete instantiation of the JavaScript `Math` primitives on the
values exercised by the witnesses below, consistent with the real
functions there: `sqrt 25 = 5`, `sqrt 40000 = 200`, `sqrt 0 = 0`,
`atan2 0 0 = 0`, `cos 0 = 1`, `sin 0 = 0`, and
`(cos θ, sin θ) = (3/5, 4/5)` for `θ = atan2 4 3` (encoded as the
token `1`). -/
def jsM : JsMath :=
  { sqrt := fun q => if q = 25 then 5 else if q = 40000 then 200 else 0
    atan2 := fun dy dx => if dy = 4 ∧ dx = 3 then 1 else 0
    cos := fun t => if t = 1 then 3 / 5 else 1
    sin := fun t => if t = 1 then 4 / 5 else 0 }

/-- Optional item carries the id `k`. -/
def optItemIs (o : Option Item) (k : List Char) : Bool :=
  match o with
  | some it => it.id = k
  | none => false

/-- Cell carries the item whose id is `k` (used to count cells per item). -/
def cellHasItemId (c : Cell) (k : List Char) : Bool :=
  optItemIs c.item k

-- Concrete fixtures used by the witness theorems.

/-- Point at the origin with base radius. -/
def P1w : Pt := ⟨0, 0, 0, 0, 60, 60, "1".data⟩

/-- Point at distance 5 from `P1w` (3-4-5 triangle). -/
def P2w : Pt := ⟨3, 4, 0, 0, 60, 60, "2".data⟩

/-- Point at distance 200 from `P1w`, outside collision range. -/
def P3w : Pt := ⟨200, 0, 0, 0, 60, 60, "3".data⟩

/-- First point of a coincident pair (same position as `B9w`). -/
def A9w : Pt := ⟨42, 17, 0, 0, 60, 120, "5".data⟩

/-- Second point of a coincident pair (same position as `A9w`). -/
def B9w : Pt := ⟨42, 17, 1, 2, 80, 60, "6".data⟩

/-- Point with radius and target radius strictly inside the band. -/
def pW5 : Pt := ⟨100, 200, 1, -2, 100, 150, "1".data⟩

/-- Point outside the working rectangle on both axes. -/
def pW6 : Pt := ⟨-50, 900, 3, 4, 70, 80, "2".data⟩

/-- Point with radius 120, halfway through the radius band. -/
def pW7 : Pt := ⟨10, 20, 0, 0, 120, 120, "1".data⟩

/-- Two well-separated points with distinct ids. -/
def ptsC8 : List Pt :=
  [⟨100, 100, 0, 0, 60, 60, "1".data⟩, ⟨500, 500, 0, 0, 60, 60, "2".data⟩]

/-- Renderer that produces no polygon for any index (degenerate case). -/
def renderNone : Nat → Option (List Char) := fun _ => none

/-- The cell generated for `pW7` by `renderNone` over the catalog `[itm1]`. -/
def cW7 : Cell := ⟨none, some itm1, cellRelevance pW7, (pW7.x, pW7.y)⟩

/-- Every string begins with itself. -/
theorem startsWithL_self (s : List Char) : startsWithL s s = true := by
  induction s with
  | nil => rfl
  | cons a t ih => simp [startsWithL, ih]

/-- Every string contains itself as a substring. -/
theorem includesL_self (s : List Char) : includesL s s = true := by
  cases s with
  | nil => rfl
  | cons c t => simp [includesL, startsWithL_self]

/-- The clamp-and-floor postprocessing never exceeds 1. -/
theorem clampFloor_le_one (s : ℚ) :
    (if min s 1 = 0 then (0.05 : ℚ) else min s 1) ≤ 1 := by
  split_ifs with h
  · norm_num
  · exact min_le_right _ _

/-- The clamp-and-floor postprocessing is never 0. -/
theorem clampFloor_ne_zero (s : ℚ) :
    (if min s 1 = 0 then (0.05 : ℚ) else min s 1) ≠ 0 := by
  split_ifs with h
  · norm_num
  · exact h

/-- Closed form of `calculateRelevance` on a non-empty query. -/
theorem calculateRelevance_nonempty (q : List Char) (item : Item) (hq : q ≠ []) :
    calculateRelevance q item =
      (if min ((if includesL (lowerL item.title) (lowerL q) then (0.6 : ℚ) else 0)
          + (if includesL (lowerL item.category) (lowerL q) then (0.3 : ℚ) else 0)
          + (if item.tags.any (fun t => includesL (lowerL t) (lowerL q)) then (0.2 : ℚ) else 0)
          + (if lowerL item.title = lowerL q then (0.4 : ℚ) else 0)) 1 = 0
       then 0.05
       else min ((if includesL (lowerL item.title) (lowerL q) then (0.6 : ℚ) else 0)
          + (if includesL (lowerL item.category) (lowerL q) then (0.3 : ℚ) else 0)
          + (if item.tags.any (fun t => includesL (lowerL t) (lowerL q)) then (0.2 : ℚ) else 0)
          + (if lowerL item.title = lowerL q then (0.4 : ℚ) else 0)) 1) := by
  unfold calculateRelevance
  rw [if_neg hq]

/-- The relevance score never exceeds 1 (the clamp). -/
theorem calculateRelevance_le_one (q : List Char) (item : Item) :
    calculateRelevance q item ≤ 1 := by
  by_cases hq : q = []
  · simp only [calculateRelevance, if_pos hq]
    norm_num
  · rw [calculateRelevance_nonempty q item hq]
    exact clampFloor_le_one _

/-- C1: the relevance score agrees with the spec formula: 0.1 for the
empty query; otherwise the sum of 0.6 / 0.3 / 0.2 substring weights
plus a 0.4 exact-title bonus, clamped above by 1, flooring a zero
clamped sum to 0.05.  A query equal to an item's title scores exactly
1, a non-empty query matching nothing scores exactly 0.05, and the
score is never 0. -/
theorem C1_relevance (q : List Char) (item : Item) :
    calculateRelevance q item = specRelevance q item
    ∧ (q = [] → calculateRelevance q item = 0.1)
    ∧ (q ≠ [] → q = item.title → calculateRelevance q item = 1)
    ∧ (q ≠ [] →
        includesL (lowerL item.title) (lowerL q) = false →
        includesL (lowerL item.category) (lowerL q) = false →
        item.tags.any (fun t => includesL (lowerL t) (lowerL q)) = false →
        calculateRelevance q item = 0.05)
    ∧ calculateRelevance q item ≠ 0 := by
  refine ⟨rfl, ?_, ?_, ?_, ?_⟩
  · intro h
    simp [calculateRelevance, h]
  · intro hq ht
    subst ht
    rw [calculateRelevance_nonempty _ _ hq]
    simp only [includesL_self, eq_self_iff_true, if_true]
    have hge : (1 : ℚ) ≤ (0.6 : ℚ)
        + (if includesL (lowerL item.category) (lowerL item.title) then (0.3 : ℚ) else 0)
        + (if item.tags.any (fun t => includesL (lowerL t) (lowerL item.title)) then (0.2 : ℚ) else 0)
        + (0.4 : ℚ) := by
      split_ifs <;> norm_num
    rw [min_eq_right hge]
    norm_num
  · intro hq h1 h2 h3
    have h4 : lowerL item.title ≠ lowerL q := by
      intro he
      rw [he, includesL_self] at h1
      exact Bool.true_eq_false.mp h1
    rw [calculateRelevance_nonempty _ _ hq]
    simp only [h1, h2, h3, if_neg h4]
    norm_num
  · by_cases hq : q = []
    · simp only [calculateRelevance, if_pos hq]
      norm_num
    · rw [calculateRelevance_nonempty _ _ hq]
      exact clampFloor_ne_zero _

/-- C1 witness: on the first catalog item, the empty query scores 0.1,
the exact title scores 1, and a query matching nothing scores 0.05
(and not 0). -/
theorem C1_relevance_witness :
    calculateRelevance [] itm1 = 0.1
    ∧ calculateRelevance "Neon Tokyo".data itm1 = 1
    ∧ calculateRelevance "zzz".data itm1 = 0.05
    ∧ calculateRelevance "zzz".data itm1 ≠ 0 :=
  ⟨(C1_relevance [] itm1).2.1 rfl,
   (C1_relevance "Neon Tokyo".data itm1).2.2.1 (by decide) rfl,
   (C1_relevance "zzz".data itm1).2.2.2.1 (by decide) (by decide) (by decide) (by decide),
   (C1_relevance "zzz".data itm1).2.2.2.2⟩

/-- C2: the target radius written on a query change is `BASE_RADIUS`
when the relevance score is at most 0.1, and
`BASE_RADIUS + (MAX_RADIUS - BASE_RADIUS) * score` when it exceeds
0.1; in particular the empty-query baseline maps to exactly
`BASE_RADIUS`. -/
theorem C2_target_radius (q : List Char) (item : Item) :
    (calculateRelevance q item ≤ 0.1 → updateTargetR q item = BASE_RADIUS)
    ∧ (0.1 < calculateRelevance q item →
        updateTargetR q item
          = BASE_RADIUS + (MAX_RADIUS - BASE_RADIUS) * calculateRelevance q item)
    ∧ updateTargetR [] item = BASE_RADIUS := by
  have hlow : ∀ p : List Char, calculateRelevance p item ≤ 0.1 →
      updateTargetR p item = BASE_RADIUS := by
    intro p h
    show BASE_RADIUS + (MAX_RADIUS - BASE_RADIUS)
        * (if 0.1 < calculateRelevance p item then calculateRelevance p item else 0)
      = BASE_RADIUS
    rw [if_neg (not_lt.2 h)]
    ring
  refine ⟨hlow q, ?_, ?_⟩
  · intro h
    show BASE_RADIUS + (MAX_RADIUS - BASE_RADIUS)
        * (if 0.1 < calculateRelevance q item then calculateRelevance q item else 0)
      = BASE_RADIUS + (MAX_RADIUS - BASE_RADIUS) * calculateRelevance q item
    rw [if_pos h]
  · refine hlow [] ?_
    have h0 : calculateRelevance [] item = 0.1 := by simp [calculateRelevance]
    rw [h0]

/-- C2 witness: the empty query gives target radius `BASE_RADIUS` and
the query `Nature` on an item of that category gives the linear map of
its score. -/
theorem C2_target_radius_witness :
    updateTargetR [] itm2 = BASE_RADIUS
    ∧ updateTargetR "Nature".data itm2
        = BASE_RADIUS + (MAX_RADIUS - BASE_RADIUS) * calculateRelevance "Nature".data itm2 := by
  refine ⟨(C2_target_radius [] itm2).2.2, (C2_target_radius "Nature".data itm2).2.1 ?_⟩
  have hA : includesL (lowerL itm2.title) (lowerL "Nature".data) = false := by decide
  have hB : includesL (lowerL itm2.category) (lowerL "Nature".data) = true := by decide
  have hC : (itm2.tags.any fun t => includesL (lowerL t) (lowerL "Nature".data)) = false := by
    decide
  have hD : ¬(lowerL itm2.title = lowerL "Nature".data) := by decide
  rw [calculateRelevance_nonempty _ _ (by decide)]
  simp [hA, hB, hC, hD]
  norm_num

/-- C4: one kinematic update performs, in order, radius smoothing with
factor 0.1, centering acceleration with gain 0.001 toward the canvas
midpoint, friction 0.9 after centering, then integration with the
updated velocity (semi-implicit Euler, unit time step). -/
theorem C4_physics_order (p : Pt) :
    physStep p =
      { x := p.x + (p.vx + (CANVAS_WIDTH / 2 - p.x) * 0.001) * FRICTION
        y := p.y + (p.vy + (CANVAS_HEIGHT / 2 - p.y) * 0.001) * FRICTION
        vx := (p.vx + (CANVAS_WIDTH / 2 - p.x) * 0.001) * FRICTION
        vy := (p.vy + (CANVAS_HEIGHT / 2 - p.y) * 0.001) * FRICTION
        r := p.r + (p.targetR - p.r) * 0.1
        targetR := p.targetR
        id := p.id }
    ∧ (physStep p).x = p.x + (physStep p).vx
    ∧ (physStep p).y = p.y + (physStep p).vy :=
  ⟨rfl, rfl, rfl⟩

/-- C5: the radius invariant.  Initialization sets
`r = targetR = BASE_RADIUS`; every target radius written by the query
effect lies in `[BASE_RADIUS, MAX_RADIUS]`; and the smoothing update
`r + (targetR - r) * 0.1` keeps `r` in that interval. -/
theorem C5_radius_invariant (rx ry : ℚ) (item : Item) (q : List Char) (p : Pt)
    (h1 : BASE_RADIUS ≤ p.r) (h2 : p.r ≤ MAX_RADIUS)
    (h3 : BASE_RADIUS ≤ p.targetR) (h4 : p.targetR ≤ MAX_RADIUS) :
    (initPt rx ry item).r = BASE_RADIUS
    ∧ (initPt rx ry item).targetR = BASE_RADIUS
    ∧ BASE_RADIUS ≤ updateTargetR q item ∧ updateTargetR q item ≤ MAX_RADIUS
    ∧ BASE_RADIUS ≤ (physStep p).r ∧ (physStep p).r ≤ MAX_RADIUS := by
  have hle := calculateRelevance_le_one q item
  have hrstep : (physStep p).r = p.r + (p.targetR - p.r) * 0.1 := rfl
  simp only [BASE_RADIUS, MAX_RADIUS] at h1 h2 h3 h4 ⊢
  refine ⟨rfl, rfl, ?_, ?_, ?_, ?_⟩
  · unfold updateTargetR
    simp only [BASE_RADIUS, MAX_RADIUS]
    split_ifs with h
    · nlinarith
    · norm_num
  · unfold updateTargetR
    simp only [BASE_RADIUS, MAX_RADIUS]
    split_ifs with h
    · nlinarith
    · norm_num
  · rw [hrstep]; linarith
  · rw [hrstep]; linarith

/-- C5 witness: a concrete initialization, target-radius write, and
smoothing step at `r = 100`, `targetR = 150`. -/
theorem C5_radius_invariant_witness :
    (initPt (1/2) (1/3) itm1).r = BASE_RADIUS
    ∧ (initPt (1/2) (1/3) itm1).targetR = BASE_RADIUS
    ∧ BASE_RADIUS ≤ updateTargetR [] itm1 ∧ updateTargetR [] itm1 ≤ MAX_RADIUS
    ∧ BASE_RADIUS ≤ (physStep pW5).r ∧ (physStep pW5).r ≤ MAX_RADIUS :=
  C5_radius_invariant (1/2) (1/3) itm1 [] pW5
    (by norm_num [pW5, BASE_RADIUS]) (by norm_num [pW5, MAX_RADIUS])
    (by norm_num [pW5, BASE_RADIUS]) (by norm_num [pW5, MAX_RADIUS])

/-- C6: after the bounds clamp, every point's position lies in
`[0, CANVAS_WIDTH] × [0, CANVAS_HEIGHT]` for any prior state, and the
clamp changes only `x` and `y`, leaving velocities (and radius, target
radius, id) unchanged. -/
theorem C6_bounds_clamp (pts : List Pt) (q : Pt) (hq : q ∈ clampPass pts) :
    (0 ≤ q.x ∧ q.x ≤ CANVAS_WIDTH ∧ 0 ≤ q.y ∧ q.y ≤ CANVAS_HEIGHT)
    ∧ ∃ p ∈ pts, q = clampPt p ∧ q.vx = p.vx ∧ q.vy = p.vy
        ∧ q.r = p.r ∧ q.targetR = p.targetR ∧ q.id = p.id := by
  rcases List.mem_map.1 hq with ⟨p, hp, rfl⟩
  refine ⟨⟨le_max_left 0 _, ?_, le_max_left 0 _, ?_⟩,
    p, hp, rfl, rfl, rfl, rfl, rfl, rfl⟩
  · exact max_le (by norm_num [CANVAS_WIDTH]) (min_le_left _ _)
  · exact max_le (by norm_num [CANVAS_HEIGHT]) (min_le_left _ _)

/-- C6 witness: a point outside the rectangle on both axes is clamped
back onto the boundary with its velocity intact. -/
theorem C6_bounds_clamp_witness :
    (0 ≤ (clampPt pW6).x ∧ (clampPt pW6).x ≤ CANVAS_WIDTH
      ∧ 0 ≤ (clampPt pW6).y ∧ (clampPt pW6).y ≤ CANVAS_HEIGHT)
    ∧ ∃ p ∈ [pW6], clampPt pW6 = clampPt p
        ∧ (clampPt pW6).vx = p.vx ∧ (clampPt pW6).vy = p.vy
        ∧ (clampPt pW6).r = p.r ∧ (clampPt pW6).targetR = p.targetR
        ∧ (clampPt pW6).id = p.id :=
  C6_bounds_clamp [pW6] (clampPt pW6) (by simp [clampPass])

/-- Summing a field over a list after writing position `i`. -/
theorem sumF_set (f : Pt → ℚ) :
    ∀ (l : List Pt) (i : Nat) (a : Pt) (h : i < l.length),
      sumF f (l.set i a) = sumF f l - f l[i] + f a := by
  intro l
  induction l with
  | nil => intro i a h; simp at h
  | cons b t ih =>
      intro i a h
      cases i with
      | zero =>
          simp only [List.set_cons_zero, List.getElem_cons_zero, sumF, List.map_cons,
            List.sum_cons]
          ring
      | succ n =>
          have hn : n < t.length := by simpa using h
          simp only [List.set_cons_succ, List.getElem_cons_succ, sumF, List.map_cons,
            List.sum_cons]
          have := ih n a hn
          simp only [sumF] at this
          rw [this]
          ring

/-- A pair correction moves the two points by exactly opposite vectors,
so their `x` sum is unchanged. -/
theorem collidePair_x_sum (M : JsMath) (p1 p2 : Pt) :
    Pt.x (collidePair M p1 p2).1 + Pt.x (collidePair M p1 p2).2 = Pt.x p1 + Pt.x p2 := by
  simp only [collidePair]
  split_ifs with h
  · simp only
    ring
  · rfl

/-- A pair correction moves the two points by exactly opposite vectors,
so their `y` sum is unchanged. -/
theorem collidePair_y_sum (M : JsMath) (p1 p2 : Pt) :
    Pt.y (collidePair M p1 p2).1 + Pt.y (collidePair M p1 p2).2 = Pt.y p1 + Pt.y p2 := by
  simp only [collidePair]
  split_ifs with h
  · simp only
    ring
  · rfl

/-- One pair step of the collision pass preserves any field sum that
`collidePair` preserves pairwise. -/
theorem pairStep_sumF (M : JsMath) (f : Pt → ℚ)
    (hpair : ∀ p1 p2, f (collidePair M p1 p2).1 + f (collidePair M p1 p2).2 = f p1 + f p2)
    (pts : List Pt) (i j : Nat) (hij : i < j) :
    sumF f (pairStep M pts i j) = sumF f pts := by
  cases hi : pts[i]? with
  | none => simp [pairStep, hi]
  | some p1 =>
      cases hj : pts[j]? with
      | none => simp [pairStep, hi, hj]
      | some p2 =>
          simp only [pairStep, hi, hj]
          obtain ⟨hilen, hival⟩ := List.getElem?_eq_some_iff.1 hi
          obtain ⟨hjlen, hjval⟩ := List.getElem?_eq_some_iff.1 hj
          have hne : i ≠ j := Nat.ne_of_lt hij
          have hjlen2 : j < (pts.set i (collidePair M p1 p2).1).length := by
            rw [List.length_set]; exact hjlen
          rw [sumF_set f _ j _ hjlen2, List.getElem_set_ne hne,
            sumF_set f _ i _ hilen, hival, hjval]
          have := hpair p1 p2
          linarith

/-- Folding pair steps over any list of strictly increasing index pairs
preserves a pairwise-preserved field sum. -/
theorem foldl_pairStep_sumF (M : JsMath) (f : Pt → ℚ)
    (hpair : ∀ p1 p2, f (collidePair M p1 p2).1 + f (collidePair M p1 p2).2 = f p1 + f p2) :
    ∀ (L : List (Nat × Nat)) (pts : List Pt), (∀ ij ∈ L, ij.1 < ij.2) →
      sumF f (L.foldl (fun acc ij => pairStep M acc ij.1 ij.2) pts) = sumF f pts := by
  intro L
  induction L with
  | nil => intro pts _; rfl
  | cons hd tl ih =>
      intro pts hall
      rw [List.foldl_cons,
        ih (pairStep M pts hd.1 hd.2) (fun ij h => hall ij (List.mem_cons_of_mem _ h))]
      exact pairStep_sumF M f hpair pts hd.1 hd.2 (hall hd (List.mem_cons_self _ _))

/-- Membership in the visited pair list: exactly the pairs `i < j < n`. -/
theorem mem_pairsList {n a b : Nat} : (a, b) ∈ pairsList n ↔ a < b ∧ b < n := by
  simp only [pairsList, List.mem_flatMap, List.mem_map, List.mem_range, Prod.mk.injEq]
  constructor
  · rintro ⟨i, hi, k, hk, rfl, rfl⟩
    omega
  · rintro ⟨h1, h2⟩
    exact ⟨a, by omega, b - (a + 1), by omega, rfl, by omega⟩

/-- The double loop visits each pair at most once. -/
theorem pairsList_nodup (n : Nat) : (pairsList n).Nodup := by
  rw [pairsList, List.nodup_flatMap]
  constructor
  · intro i hi
    refine (List.nodup_range _).map ?_
    intro k1 k2 hk
    simp only [Prod.mk.injEq] at hk
    omega
  · refine (List.pairwise_lt_range n).imp ?_
    intro a b hab pr hpa hpb
    simp only [List.mem_map, List.mem_range] at hpa hpb
    obtain ⟨k1, _, hk1⟩ := hpa
    obtain ⟨k2, _, hk2⟩ := hpb
    rw [← hk1] at hk2
    simp only [Prod.mk.injEq] at hk2
    omega

/-- C3: for any pair whose distance is below
`minDist = (p1.r + p2.r) * 0.8`, the resolver displaces `p1` by
`-force` and `p2` by `+force` along the unit vector from `p1` to `p2`
with `force = (minDist - dist) * STIFFNESS`; pairs at distance at least
`minDist` are unchanged; and the pass visits each unordered index pair
`i < j < n` exactly once, in a single fold. -/
theorem C3_collision_pass (M : JsMath) (p1 p2 : Pt) (n : Nat) (dx dy dist minDist : ℚ)
    (hdx : dx = p2.x - p1.x) (hdy : dy = p2.y - p1.y)
    (hdist : dist = M.sqrt (dx * dx + dy * dy))
    (hmin : minDist = (p1.r + p2.r) * 0.8)
    (hsq : dist * dist = dx * dx + dy * dy)
    (hpos : 0 < dist)
    (hcos : M.cos (M.atan2 dy dx) = dx / dist)
    (hsin : M.sin (M.atan2 dy dx) = dy / dist) :
    (dx / dist) ^ 2 + (dy / dist) ^ 2 = 1
    ∧ (dist < minDist →
        collidePair M p1 p2 =
          ({ p1 with x := p1.x - (minDist - dist) * STIFFNESS * (dx / dist),
                     y := p1.y - (minDist - dist) * STIFFNESS * (dy / dist) },
           { p2 with x := p2.x + (minDist - dist) * STIFFNESS * (dx / dist),
                     y := p2.y + (minDist - dist) * STIFFNESS * (dy / dist) }))
    ∧ (minDist ≤ dist → collidePair M p1 p2 = (p1, p2))
    ∧ (∀ a b : Nat, ((a, b) ∈ pairsList n ↔ a < b ∧ b < n))
    ∧ (pairsList n).Nodup
    ∧ collidePass M = fun pts =>
        (pairsList pts.length).foldl (fun acc ij => pairStep M acc ij.1 ij.2) pts := by
  subst hdx
  subst hdy
  subst hmin
  have hne : dist ≠ 0 := ne_of_gt hpos
  refine ⟨?_, ?_, ?_, fun a b => mem_pairsList, pairsList_nodup n, rfl⟩
  · field_simp
    linear_combination -hsq
  · intro hlt
    simp only [collidePair, ← hdist]
    rw [if_pos hlt, hcos, hsin]
    simp only [Prod.mk.injEq, Pt.mk.injEq, and_true, true_and]
    refine ⟨⟨by ring, by ring⟩, by ring, by ring⟩
  · intro hge
    simp only [collidePair, ← hdist]
    rw [if_neg (not_lt.2 hge)]

/-- C3 witness: a 3-4-5 pair inside collision range is pushed apart
along `(3/5, 4/5)`, and a pair at distance 200 is left unchanged. -/
theorem C3_collision_pass_witness :
    ((3 : ℚ) / 5) ^ 2 + ((4 : ℚ) / 5) ^ 2 = 1
    ∧ collidePair jsM P1w P2w =
        ({ P1w with x := P1w.x - ((96 : ℚ) - 5) * STIFFNESS * (3 / 5),
                    y := P1w.y - ((96 : ℚ) - 5) * STIFFNESS * (4 / 5) },
         { P2w with x := P2w.x + ((96 : ℚ) - 5) * STIFFNESS * (3 / 5),
                    y := P2w.y + ((96 : ℚ) - 5) * STIFFNESS * (4 / 5) })
    ∧ collidePair jsM P1w P3w = (P1w, P3w)
    ∧ ((1, 2) ∈ pairsList 3 ↔ 1 < 2 ∧ 2 < 3)
    ∧ (pairsList 3).Nodup := by
  have T1 := C3_collision_pass jsM P1w P2w 3 3 4 5 96
    (by norm_num [P1w, P2w]) (by norm_num [P1w, P2w]) (by norm_num [jsM])
    (by norm_num [P1w, P2w]) (by norm_num) (by norm_num)
    (by norm_num [jsM]) (by norm_num [jsM])
  have T2 := C3_collision_pass jsM P1w P3w 3 200 0 200 96
    (by norm_num [P1w, P3w]) (by norm_num [P1w, P3w]) (by norm_num [jsM])
    (by norm_num [P1w, P3w]) (by norm_num) (by norm_num)
    (by norm_num [jsM]) (by norm_num [jsM])
  exact ⟨T1.1, T1.2.1 (by norm_num), T2.2.2.1 (by norm_num),
    T1.2.2.2.1 1 2, T1.2.2.2.2.1⟩

/-- C9 counterexample: no perturbation is injected for coincident
points.  The resolver takes the ordinary branch with
`angle = atan2(0,0) = 0`, so the displacement is exactly `(∓24/5, 0)` —
the same fixed positive-x direction for every coincident pair, with the
`y` coordinates untouched and nothing pair-index-derived in sight. -/
theorem C9_counterexample :
    collidePair jsM ⟨100, 100, 0, 0, 60, 60, "1".data⟩ ⟨100, 100, 0, 0, 60, 60, "2".data⟩
      = (⟨100 - 24/5, 100, 0, 0, 60, 60, "1".data⟩,
         ⟨100 + 24/5, 100, 0, 0, 60, 60, "2".data⟩)
    ∧ collidePair jsM ⟨7, 9, 0, 0, 60, 60, "3".data⟩ ⟨7, 9, 0, 0, 60, 60, "4".data⟩
      = (⟨7 - 24/5, 9, 0, 0, 60, 60, "3".data⟩,
         ⟨7 + 24/5, 9, 0, 0, 60, 60, "4".data⟩) := by
  constructor <;>
    · simp only [collidePair, jsM]
      norm_num [STIFFNESS, Prod.mk.injEq, Pt.mk.injEq]

/-- C9 (amended): at `dist = 0` the JS `Math.atan2(0,0) = 0` makes the
displacement direction the constant positive x-axis: `p1` moves by
`(-force, 0)` and `p2` by `(+force, 0)` with
`force = (p1.r + p2.r) * 0.8 * STIFFNESS`.  The update is deterministic
and total — the direction comes from `atan2`/`cos`/`sin`, never from a
division by `dist` — but no perturbation is injected. -/
theorem C9_coincident (M : JsMath) (p1 p2 : Pt)
    (h0 : M.sqrt 0 = 0) (ha : M.atan2 0 0 = 0) (hc : M.cos 0 = 1) (hs : M.sin 0 = 0)
    (hx : p2.x = p1.x) (hy : p2.y = p1.y) (hr : 0 < p1.r + p2.r) :
    collidePair M p1 p2 =
      ({ p1 with x := p1.x - (p1.r + p2.r) * 0.8 * STIFFNESS },
       { p2 with x := p2.x + (p1.r + p2.r) * 0.8 * STIFFNESS }) := by
  simp only [collidePair, hx, hy, sub_self, mul_zero, add_zero, h0, ha, hc, hs,
    one_mul, zero_mul, sub_zero]
  rw [if_pos (mul_pos hr (by norm_num : (0 : ℚ) < 0.8))]

/-- C9 witness: a concrete coincident pair with radii 60 and 80 is
split along the x-axis by `force = 140 * 0.8 * 0.05`. -/
theorem C9_coincident_witness :
    collidePair jsM A9w B9w =
      ({ A9w with x := A9w.x - (A9w.r + B9w.r) * 0.8 * STIFFNESS },
       { B9w with x := B9w.x + (A9w.r + B9w.r) * 0.8 * STIFFNESS }) :=
  C9_coincident jsM A9w B9w (by norm_num [jsM]) (by norm_num [jsM])
    (by norm_num [jsM]) (by norm_num [jsM])
    (by norm_num [A9w, B9w]) (by norm_num [A9w, B9w]) (by norm_num [A9w, B9w])

/-- C10: the collision pass preserves the vector sum of all positions
(each pairwise correction is equal and opposite), hence the centroid. -/
theorem C10_centroid_preserved (M : JsMath) (pts : List Pt) :
    sumX (collidePass M pts) = sumX pts ∧ sumY (collidePass M pts) = sumY pts := by
  have hmem : ∀ ij ∈ pairsList pts.length, (ij : Nat × Nat).1 < ij.2 := by
    intro ij hij
    obtain ⟨a, b⟩ := ij
    exact (mem_pairsList.1 hij).1
  exact ⟨foldl_pairStep_sumF M Pt.x (collidePair_x_sum M) _ pts hmem,
    foldl_pairStep_sumF M Pt.y (collidePair_y_sum M) _ pts hmem⟩

/-- Unfolding equation for `genCellsAux` on a cons cell. -/
theorem genCellsAux_cons (render : Nat → Option (List Char)) (items : List Item)
    (i : Nat) (p : Pt) (rest : List Pt) :
    genCellsAux render items i (p :: rest) =
      { path := render i
        item := items.find? (fun it => it.id = p.id)
        relevance := cellRelevance p
        center := (p.x, p.y) } :: genCellsAux render items (i + 1) rest := rfl

/-- Every generated cell takes its relevance from one of the points. -/
theorem mem_genCellsAux {render : Nat → Option (List Char)} {items : List Item} {c : Cell} :
    ∀ {i : Nat} {pts : List Pt}, c ∈ genCellsAux render items i pts →
      ∃ p ∈ pts, c.relevance = cellRelevance p := by
  intro i pts
  induction pts generalizing i with
  | nil => intro h; simp [genCellsAux] at h
  | cons p rest ih =>
      intro h
      rw [genCellsAux_cons] at h
      rcases List.mem_cons.1 h with hc | hc
      · exact ⟨p, List.mem_cons_self _ _, by rw [hc]⟩
      · obtain ⟨p2, hp2, he⟩ := ih hc
        exact ⟨p2, List.mem_cons_of_mem _ hp2, he⟩

/-- One cell is generated per point, unconditionally. -/
theorem genCellsAux_length (render : Nat → Option (List Char)) (items : List Item) :
    ∀ (pts : List Pt) (i : Nat), (genCellsAux render items i pts).length = pts.length := by
  intro pts
  induction pts with
  | nil => intro i; rfl
  | cons p rest ih =>
      intro i
      rw [genCellsAux_cons, List.length_cons, ih (i + 1), List.length_cons]

/-- The generated cells carry exactly the renderer's output per index. -/
theorem genCellsAux_map_path (render : Nat → Option (List Char)) (items : List Item) :
    ∀ (pts : List Pt) (i : Nat),
      (genCellsAux render items i pts).map Cell.path
        = (List.range pts.length).map (fun j => render (i + j)) := by
  intro pts
  induction pts with
  | nil => intro i; rfl
  | cons p rest ih =>
      intro i
      rw [genCellsAux_cons, List.map_cons, ih (i + 1), List.length_cons,
        List.range_succ_eq_map, List.map_cons, List.map_map]
      refine congrArg₂ List.cons (congrArg render (by omega)) ?_
      refine List.map_congr_left fun a ha => ?_
      show render (i + 1 + a) = render (i + (a + 1))
      exact congrArg render (by omega)

/-- The item stored in each generated cell is the `find?` lookup of the
corresponding point's id. -/
theorem genCellsAux_map_item (render : Nat → Option (List Char)) (items : List Item) :
    ∀ (pts : List Pt) (i : Nat),
      (genCellsAux render items i pts).map Cell.item
        = pts.map (fun p => items.find? (fun it => it.id = p.id)) := by
  intro pts
  induction pts with
  | nil => intro i; rfl
  | cons p rest ih =>
      intro i
      rw [genCellsAux_cons, List.map_cons, List.map_cons, ih (i + 1)]

/-- When the images of a list under `f` are distinct, at most one
element maps to any given value. -/
theorem countP_image_le_one {α β : Type} [DecidableEq β] (f : α → β) :
    ∀ (l : List α), (l.map f).Nodup → ∀ k : β, (l.countP fun a => f a = k) ≤ 1 := by
  intro l
  induction l with
  | nil => intro _ k; simp
  | cons a t ih =>
      intro hn k
      rw [List.map_cons, List.nodup_cons] at hn
      obtain ⟨hna, hnt⟩ := hn
      rw [List.countP_cons]
      by_cases hk : f a = k
      · have hzero : (t.countP fun b => f b = k) = 0 := by
          rw [List.countP_eq_zero]
          intro b hb hfb
          exact hna (List.mem_map.2 ⟨b, hb, by rw [of_decide_eq_true hfb, hk]⟩)
        rw [hzero]
        simp [hk]
      · have : (decide (f a = k)) = false := decide_eq_false hk
        rw [this]
        simpa using ih hnt k

/-- C7: every published cell's relevance is
`(r - BASE_RADIUS) / (MAX_RADIUS - BASE_RADIUS)` for its point; under
the radius invariant it is already clamped (the clamp is the identity)
and lies in `[0, 1]`. -/
theorem C7_cell_relevance (render : Nat → Option (List Char)) (items : List Item)
    (pts : List Pt) (hinv : ∀ p ∈ pts, BASE_RADIUS ≤ p.r ∧ p.r ≤ MAX_RADIUS)
    (c : Cell) (hc : c ∈ genCells render items pts) :
    (∃ p ∈ pts, c.relevance = (p.r - BASE_RADIUS) / (MAX_RADIUS - BASE_RADIUS))
    ∧ c.relevance = max 0 (min 1 c.relevance)
    ∧ 0 ≤ c.relevance ∧ c.relevance ≤ 1 := by
  obtain ⟨p, hp, he⟩ := mem_genCellsAux hc
  obtain ⟨hb1, hb2⟩ := hinv p hp
  simp only [BASE_RADIUS, MAX_RADIUS] at hb1 hb2
  have h0 : 0 ≤ c.relevance := by
    rw [he]
    unfold cellRelevance
    apply div_nonneg
    · simp only [BASE_RADIUS]; linarith
    · norm_num [BASE_RADIUS, MAX_RADIUS]
  have h1 : c.relevance ≤ 1 := by
    rw [he]
    unfold cellRelevance
    rw [div_le_one (by norm_num [BASE_RADIUS, MAX_RADIUS])]
    simp only [BASE_RADIUS, MAX_RADIUS]
    linarith
  refine ⟨⟨p, hp, he⟩, ?_, h0, h1⟩
  rw [min_eq_right h1, max_eq_right h0]

/-- C7 witness: the cell generated for a point with radius 120 carries
relevance `(120 - 60) / 120 = 1/2`, inside `[0, 1]` and fixed by the
clamp. -/
theorem C7_cell_relevance_witness :
    (∃ p ∈ [pW7], cW7.relevance = (p.r - BASE_RADIUS) / (MAX_RADIUS - BASE_RADIUS))
    ∧ cW7.relevance = max 0 (min 1 cW7.relevance)
    ∧ 0 ≤ cW7.relevance ∧ cW7.relevance ≤ 1 :=
  C7_cell_relevance renderNone [itm1] [pW7]
    (by
      intro p hp
      rw [List.mem_singleton] at hp
      subst hp
      constructor <;> norm_num [pW7, BASE_RADIUS, MAX_RADIUS])
    cW7
    (by simp [genCells, genCellsAux_cons, cW7, renderNone, itm1, pW7])

/-- C8 counterexample: when no polygon can be produced for any point
(the renderer yields nothing), the cells are NOT omitted from the
output: the tick still publishes one cell per point, each carrying an
empty path (the JSX hides such cells with `display: none`; they are in
the published collection nonetheless). -/
theorem C8_counterexample :
    (genCells (fun _ => none) MOCK_ITEMS ptsC8).length = 2
    ∧ (genCells (fun _ => none) MOCK_ITEMS ptsC8).map Cell.path = [none, none] :=
  ⟨rfl, rfl⟩

/-- C8 (amended): no cell is ever omitted.  The output contains exactly
one cell per point, in order, carrying the renderer's (possibly null)
path verbatim; the tick is not aborted; and with distinct point ids —
one point per item — each item has at most one cell in the output. -/
theorem C8_cells_never_omitted (render : Nat → Option (List Char)) (items : List Item)
    (pts : List Pt) (hnodup : (pts.map Pt.id).Nodup) :
    (genCells render items pts).length = pts.length
    ∧ (genCells render items pts).map Cell.path = (List.range pts.length).map render
    ∧ ∀ k : List Char, ((genCells render items pts).countP fun c => cellHasItemId c k) ≤ 1 := by
  refine ⟨genCellsAux_length render items pts 0, ?_, ?_⟩
  · rw [genCells, genCellsAux_map_path]
    exact List.map_congr_left fun a ha => congrArg render (by omega)
  · intro k
    have hcount1 : ((genCells render items pts).countP fun c => cellHasItemId c k)
        = (((genCells render items pts).map Cell.item).countP fun o => optItemIs o k) := by
      rw [List.countP_map]
      rfl
    rw [hcount1, genCells, genCellsAux_map_item, List.countP_map]
    have hmono : ∀ p ∈ pts,
        ((fun o => optItemIs o k) ∘ fun p => items.find? fun it => it.id = p.id) p = true →
          (decide (p.id = k)) = true := by
      intro p hp hq
      simp only [Function.comp_apply] at hq
      cases hfind : items.find? (fun it => it.id = p.id) with
      | none => rw [hfind] at hq; simp [optItemIs] at hq
      | some it =>
          rw [hfind] at hq
          simp only [optItemIs] at hq
          have hit : it.id = p.id :=
            of_decide_eq_true
              (@List.find?_some Item (fun x => decide (x.id = p.id)) it items hfind)
          have hik : it.id = k := of_decide_eq_true hq
          simp [← hit, hik]
    exact (List.countP_mono_left hmono).trans (countP_image_le_one Pt.id pts hnodup k)

/-- C8 amended-claim witness: with a renderer that always produces a
path and two points with distinct ids, the output has one cell per
point, the paths match the renderer, and no item id occurs twice. -/
theorem C8_cells_never_omitted_witness :
    (genCells (fun _ => some "M".data) MOCK_ITEMS ptsC8).length = ptsC8.length
    ∧ (genCells (fun _ => some "M".data) MOCK_ITEMS ptsC8).map Cell.path
        = (List.range ptsC8.length).map (fun _ => some "M".data)
    ∧ ((genCells (fun _ => some "M".data) MOCK_ITEMS ptsC8).countP
          fun c => cellHasItemId c "1".data) ≤ 1 := by
  have T := C8_cells_never_omitted (fun _ => some "M".data) MOCK_ITEMS ptsC8 (by decide)
  exact ⟨T.1, T.2.1, T.2.2 "1".data⟩

end VGrid
